import Mathlib

/-!
Shallow embedding of the Earth Hour date/time engine
(`lib/utils/earthHourDate.js`, `lib/utils/earthHourTime.js`,
`lib/utils/earthHourChecks.js`, `lib/utils/dateFormat.js`).

Modelling conventions:
* an absolute instant (a JS `Date` / luxon `DateTime` value) is its Unix
  timestamp in milliseconds, as an `Int`;
* an IANA timezone is modelled as a fixed UTC offset in milliseconds
  (`Zone`); the zone-dependent behaviour exercised by the claims keeps a
  constant offset across the instants involved (Europe/Amsterdam is CET,
  UTC+01:00, both at the late-March dates before the DST switch and in
  February);
* civil (wall-clock) dates are converted to and from day counts with the
  standard proleptic-Gregorian day-count algorithm, the one the datetime
  library implements;
* `DateTime.now()` is made explicit: every function of the source that
  reads the clock takes `now : Int` as a parameter.
-/

/-- A resolved timezone, modelled as a fixed UTC offset in milliseconds. -/
structure Zone where
  offset : Int
deriving DecidableEq

/-- A civil (wall-clock) datetime: the fields luxon exposes on a zoned
`DateTime` (`year`, `month`, `day`, `hour`, `minute`, `second`, `millisecond`). -/
structure CivilDT where
  year : Int
  month : Int
  day : Int
  hour : Int
  minute : Int
  second : Int
  ms : Int
deriving DecidableEq

/-- Days from 1970-01-01 of a proleptic-Gregorian civil date
(standard era/year-of-era day-count algorithm). -/
def daysFromCivil (y m d : Int) : Int :=
  let y1 := if m ≤ 2 then y - 1 else y
  let era := y1 / 400
  let yoe := y1 - era * 400
  let doy := (153 * ((m + 9) % 12) + 2) / 5 + d - 1
  era * 146097 + (yoe * 365 + yoe / 4 - yoe / 100 + doy) - 719468

/-- Civil date (year, month, day) of a count of days from 1970-01-01
(inverse of `daysFromCivil`). -/
def civilFromDays (z : Int) : Int × Int × Int :=
  let z1 := z + 719468
  let era := z1 / 146097
  let doe := z1 - era * 146097
  let yoe := (doe - doe / 1460 + doe / 36524 - doe / 146096) / 365
  let y := yoe + era * 400
  let doy := doe - (365 * yoe + yoe / 4 - yoe / 100)
  let mp := (5 * doy + 2) / 153
  let d := doy - (153 * mp + 2) / 5 + 1
  let m := mp + (if mp < 10 then 3 else -9)
  (if m ≤ 2 then y + 1 else y, m, d)

/-- Local civil datetime of an instant in a zone (what
`DateTime.fromJSDate(date).setZone(zone)` exposes). -/
def civilOfMs (z : Zone) (t : Int) : CivilDT :=
  let loc := t + z.offset
  let days := loc / 86400000
  let rem := loc - 86400000 * days
  match civilFromDays days with
  | (y, m, d) =>
    { year := y, month := m, day := d,
      hour := rem / 3600000,
      minute := (rem % 3600000) / 60000,
      second := (rem % 60000) / 1000,
      ms := rem % 1000 }

/-- Instant of a local civil datetime in a zone (what
`DateTime.fromObject(fields, { zone })....toJSDate()` produces). -/
def msOfCivil (c : CivilDT) (z : Zone) : Int :=
  daysFromCivil c.year c.month c.day * 86400000
    + c.hour * 3600000 + c.minute * 60000 + c.second * 1000 + c.ms - z.offset

/-- Local calendar year of an instant in a zone (luxon `dt.year`). -/
def yearOf (z : Zone) (t : Int) : Int := (civilOfMs z t).year

/-- Luxon weekday convention: 1 = Monday … 7 = Sunday
(1970-01-01, day 0, was a Thursday, weekday 4). -/
def luxonWeekday (y m d : Int) : Int := (daysFromCivil y m d + 3) % 7 + 1

/-- `earthHourDate.js`: `{ 6: 0, 7: 1 }[weekday] ?? weekday + 1` —
days to subtract from March 31 to reach the last Saturday. -/
def daysToSubtract (w : Int) : Int := if w = 6 then 0 else if w = 7 then 1 else w + 1

/-- Day of month of the last Saturday of March computed by `getEarthHourDate`:
March 31 minus `daysToSubtract` of March 31's weekday. -/
def earthHourDay (year : Int) : Int :=
  31 - daysToSubtract (luxonWeekday year 3 31)

/-- The civil datetime `getEarthHourDate` builds: the last Saturday of March
with the clock fields set to 20:30:00.000 local. -/
def getEarthHourCivil (year : Int) : CivilDT :=
  { year := year, month := 3, day := earthHourDay year,
    hour := 20, minute := 30, second := 0, ms := 0 }

/-- `getEarthHourDate(year, timezone)`: instant of 20:30 local on the last
Saturday of March of `year` (the JS function returns it as a `Date`). -/
def getEarthHourDate (year : Int) (z : Zone) : Int :=
  msOfCivil (getEarthHourCivil year) z

/-- `addHourToStart(startDate, timezone)`: luxon `plus({ hours: 1 })` adds one
hour of real time, 3 600 000 ms. -/
def addHourToStart (startDate : Int) : Int := startDate + 3600000

/-- `getEarthHourEnd(year, timezone)`: start + 1 hour. -/
def getEarthHourEnd (year : Int) (z : Zone) : Int :=
  addHourToStart (getEarthHourDate year z)

/-- `getThisYearsEarthHourStart(timezone)`: this calendar year's start,
the year taken from `now` in the zone. -/
def getThisYearsEarthHourStart (z : Zone) (now : Int) : Int :=
  getEarthHourDate (yearOf z now) z

/-- `getThisYearsEarthHourEnd(timezone)`: this year's start + 1 hour. -/
def getThisYearsEarthHourEnd (z : Zone) (now : Int) : Int :=
  addHourToStart (getThisYearsEarthHourStart z now)

/-- `getUpcomingEarthHourStart(timezone)`: this year's start while `now` is
strictly before it; once `now >= thisYearEarthHour`, next year's start. -/
def getUpcomingEarthHourStart (z : Zone) (now : Int) : Int :=
  if getEarthHourDate (yearOf z now) z ≤ now
  then getEarthHourDate (yearOf z now + 1) z
  else getEarthHourDate (yearOf z now) z

/-- `getUpcomingEarthHourEnd(timezone)`: upcoming start + 1 hour. -/
def getUpcomingEarthHourEnd (z : Zone) (now : Int) : Int :=
  addHourToStart (getUpcomingEarthHourStart z now)

/-- Europe/Amsterdam at the instants the fixtures touch: CET, UTC+01:00
(the late-March Earth Hour dates of 2024–2026 precede the DST switch). -/
def amsterdamCET : Zone := ⟨3600000⟩

/-- `minutesUntil(targetDate, timezone, now)` rounds the millisecond difference
to minutes with JS `Math.round`, which is `⌊x + 1/2⌋`; on integer milliseconds
`Math.round(d / 60000) = ⌊(2d + 60000) / 120000⌋` (the `timezone` argument does
not affect the value: `setZone` keeps the instant). -/
def minutesUntil (target now : Int) : Int :=
  (2 * (target - now) + 60000) / 120000

/-- `getMinutesUntilEarthHourStart(timezone)`: against this year's start while
`now` is before this year's end, else against the upcoming start. -/
def getMinutesUntilEarthHourStart (z : Zone) (now : Int) : Int :=
  if now < getThisYearsEarthHourEnd z now
  then minutesUntil (getThisYearsEarthHourStart z now) now
  else minutesUntil (getUpcomingEarthHourStart z now) now

/-- `getMinutesUntilEarthHourEnd(timezone)`: against this year's end while
`now` is before it, else against the upcoming end. -/
def getMinutesUntilEarthHourEnd (z : Zone) (now : Int) : Int :=
  if now < getThisYearsEarthHourEnd z now
  then minutesUntil (getThisYearsEarthHourEnd z now) now
  else minutesUntil (getUpcomingEarthHourEnd z now) now

/-- `earthHourChecks.js` `isCurrentlyEarthHour(timezone)`:
`now >= start && now < end` against this year's window. -/
def isCurrentlyEarthHour (z : Zone) (now : Int) : Bool :=
  decide (getThisYearsEarthHourStart z now ≤ now)
    && decide (now < getThisYearsEarthHourEnd z now)

/-- Whether a proleptic-Gregorian year is a leap year. -/
def isLeap (y : Int) : Bool :=
  (y % 4 = 0 && !(y % 100 = 0)) || y % 400 = 0

/-- Length of a civil month. -/
def daysInMonth (y m : Int) : Int :=
  if m = 2 then (if isLeap y then 29 else 28)
  else if m = 4 ∨ m = 6 ∨ m = 9 ∨ m = 11 then 30
  else 31

/-- Luxon `minus({ months: 1 })`: step the civil month back by one and clamp
the day to the target month's length, keeping the time of day. -/
def minusOneMonth (c : CivilDT) : CivilDT :=
  let y := if c.month = 1 then c.year - 1 else c.year
  let m := if c.month = 1 then 12 else c.month - 1
  { c with year := y, month := m, day := min c.day (daysInMonth y m) }

/-- `getOneMonthBeforeEarthHour(year, timezone)`: the Earth Hour start, taken
back to local civil fields, minus one civil month, reckoned back to an instant. -/
def getOneMonthBeforeEarthHour (year : Int) (z : Zone) : Int :=
  msOfCivil (minusOneMonth (civilOfMs z (getEarthHourDate year z))) z

/-- `dateFormat.js` `ordinalEn(day)`:
`s = ['th','st','nd','rd']; v = day % 100; day + (s[(v-20)%10] || s[v] || s[0])`.
JS `%` is the truncated remainder; an array lookup at an index outside 0–3 is
`undefined` and falls through `||` (index `-0` reads `s[0]`). -/
def ordinalEn (day : Int) : String :=
  let s : List String := ["th", "st", "nd", "rd"]
  let v := Int.tmod day 100
  let i := Int.tmod (v - 20) 10
  let suffix :=
    if 0 ≤ i ∧ i < 4 then s.getD i.toNat "th"
    else if 0 ≤ v ∧ v < 4 then s.getD v.toNat "th"
    else s.getD 0 "th"
  toString day ++ suffix

/-- English month names (CLDR data the datetime library renders for
`toFormat('MMMM')`; modelled for the locales the spec exercises). -/
def monthNamesEn : List String :=
  ["January", "February", "March", "April", "May", "June", "July",
   "August", "September", "October", "November", "December"]

/-- Dutch month names (CLDR data, as above). -/
def monthNamesNl : List String :=
  ["januari", "februari", "maart", "april", "mei", "juni", "juli",
   "augustus", "september", "oktober", "november", "december"]

/-- Localized month name for the locale tags the claims exercise
("en", "en-GB", "nl"); other tags are not evaluated by any claim. -/
def monthName (loc : String) (m : Int) : String :=
  if loc = "nl" then monthNamesNl.getD (m.toNat - 1) ""
  else monthNamesEn.getD (m.toNat - 1) ""

/-- JS `String.prototype.startsWith`, written over the character lists so the
kernel can evaluate it. -/
def strStartsWith (s pat : String) : Bool := pat.data.isPrefixOf s.data

/-- `formatDateFriendly(date, timezone, locale)`: `loc = locale || 'en'`;
ordinal day iff `loc.startsWith('en')`, bare numeral otherwise;
`"{day} {MMMM} {yyyy}"`. The optional JS `locale` parameter is an
`Option String`; `undefined` and `''` are both falsy. -/
def formatDateFriendly (t : Int) (z : Zone) (locale : Option String) : String :=
  let loc := match locale with
    | none => "en"
    | some s => if s = "" then "en" else s
  let c := civilOfMs z t
  if strStartsWith loc "en"
  then ordinalEn c.day ++ " " ++ monthName loc c.month ++ " " ++ toString c.year
  else toString c.day ++ " " ++ monthName loc c.month ++ " " ++ toString c.year

/-- `formatDateFriendlyNoYear(date, timezone, locale)`: as
`formatDateFriendly` without the year part. -/
def formatDateFriendlyNoYear (t : Int) (z : Zone) (locale : Option String) : String :=
  let loc := match locale with
    | none => "en"
    | some s => if s = "" then "en" else s
  let c := civilOfMs z t
  if strStartsWith loc "en"
  then ordinalEn c.day ++ " " ++ monthName loc c.month
  else toString c.day ++ " " ++ monthName loc c.month

/-- Outcome of a JS call: a returned value or a thrown error. -/
inductive JsResult (α : Type) where
  | value (v : α)
  | thrown (msg : String)
deriving DecidableEq

/-- A JS `Date`: a valid millisecond timestamp, or the Invalid Date
(`getTime()` is `NaN`). -/
inductive JSDate where
  | valid (ms : Int)
  | invalid
deriving DecidableEq

/-- `getEarthHourDate` as called with an arbitrary timezone string, `resolve`
standing for the IANA database. Luxon's default configuration does not throw on
an unresolvable zone: `DateTime.fromObject` yields an invalid `DateTime`
(reason "unsupported zone"), `minus`/`set` propagate it, and `toJSDate()`
returns the Invalid Date. -/
def getEarthHourDateJS (resolve : String → Option Zone) (year : Int)
    (tz : String) : JsResult JSDate :=
  match resolve tz with
  | none => .value .invalid
  | some z => .value (.valid (getEarthHourDate year z))

/-- "Modelled from the spec:" rounding of a millisecond difference to whole
minutes with ties away from zero — one of the two rules the spec offers for
`diffMinutes`. -/
def roundHalfAwayFromZero (d : Int) : Int :=
  if 0 ≤ d then (2 * d + 60000) / 120000
  else -((-(2 * d) + 60000) / 120000)

/-- "Modelled from the spec:" rounding of a millisecond difference to whole
minutes with ties to the even minute — the other rule the spec offers for
`diffMinutes`. -/
def roundHalfToEven (d : Int) : Int :=
  let m := (2 * d + 60000) / 120000
  if (2 * d + 60000) % 120000 = 0 ∧ m % 2 ≠ 0 then m - 1 else m

/-- "Modelled from the spec:" the standard English ordinal-suffix rule as the
spec words it: units digit 1→st, 2→nd, 3→rd, else th, except 11–13→th. -/
def specOrdinalSuffix (d : Int) : String :=
  if d % 100 = 11 ∨ d % 100 = 12 ∨ d % 100 = 13 then "th"
  else if d % 10 = 1 then "st"
  else if d % 10 = 2 then "nd"
  else if d % 10 = 3 then "rd"
  else "th"

/-- Within March the day count is affine in the day of month. -/
theorem daysFromCivil_march (y d : Int) :
    daysFromCivil y 3 d = daysFromCivil y 3 31 + d - 31 := by
  simp only [daysFromCivil]
  split_ifs with h
  · exact absurd h (by norm_num)
  · ring

/-- The subtraction rule of `getEarthHourDate` always lands on a Saturday
between March 25 and March 31. -/
theorem earthHourDay_lastSaturday (y : Int) :
    luxonWeekday y 3 (earthHourDay y) = 6 ∧
    25 ≤ earthHourDay y ∧ earthHourDay y ≤ 31 := by
  have hd : earthHourDay y
      = 31 - daysToSubtract ((daysFromCivil y 3 31 + 3) % 7 + 1) := rfl
  have hlin : daysFromCivil y 3 (earthHourDay y)
      = daysFromCivil y 3 31 + earthHourDay y - 31 := daysFromCivil_march y _
  have hgoal : (daysFromCivil y 3 (earthHourDay y) + 3) % 7 + 1 = 6 ∧
      25 ≤ earthHourDay y ∧ earthHourDay y ≤ 31 := by
    rw [hlin, hd]
    set k := daysFromCivil y 3 31 with hk
    simp only [daysToSubtract]
    split_ifs <;> omega
  exact hgoal

/-- Any day count is strictly before March 25 of the year after its own civil
year: the day-count inversion never lags a year boundary. -/
theorem days_lt_next_march (days : Int) :
    days < daysFromCivil ((civilFromDays days).fst + 1) 3 25 := by
  simp only [civilFromDays, daysFromCivil]
  split_ifs <;> omega

/-- The local civil year of an instant is the first component of the day-count
inversion at the instant's local day number. -/
theorem yearOf_eq_fst (z : Zone) (t : Int) :
    yearOf z t = (civilFromDays ((t + z.offset) / 86400000)).fst := by
  simp only [yearOf, civilOfMs]

/-- Once `now` has reached this year's end, `getMinutesUntilEarthHourEnd`
measures next year's end, still months away, so it is strictly positive. -/
theorem minutesUntilEnd_pos_after_end (z : Zone) (now : Int)
    (h : getThisYearsEarthHourEnd z now ≤ now) :
    0 < getMinutesUntilEarthHourEnd z now := by
  have hb := days_lt_next_march ((now + z.offset) / 86400000)
  rw [← yearOf_eq_fst z now] at hb
  have hlinD := daysFromCivil_march (yearOf z now + 1)
    (earthHourDay (yearOf z now + 1))
  have hlin25 := daysFromCivil_march (yearOf z now + 1) 25
  have hD := (earthHourDay_lastSaturday (yearOf z now + 1)).2.1
  simp only [getMinutesUntilEarthHourEnd, getThisYearsEarthHourEnd,
    getThisYearsEarthHourStart, addHourToStart, getUpcomingEarthHourEnd,
    getUpcomingEarthHourStart, getEarthHourDate, msOfCivil, getEarthHourCivil,
    minutesUntil] at *
  rw [if_neg (by omega), if_pos (by omega)]
  omega

/-- Claim C1: for every year and every zone, `getEarthHourDate` builds
20:30:00.000 local civil time on a Saturday whose date lies in the closed range
March 25 – March 31 — the subtraction rule (weekday 6 → 0, weekday 7 → 1,
otherwise weekday + 1 days back from March 31) always lands on the last
Saturday of March — and it reproduces the fixtures 2024 → Mar 30,
2025 → Mar 29, 2026 → Mar 28 read back in Europe/Amsterdam. -/
theorem C1_lastSaturdayOfMarch :
    (∀ (year : Int) (z : Zone),
      luxonWeekday year 3 (earthHourDay year) = 6 ∧
      25 ≤ earthHourDay year ∧ earthHourDay year ≤ 31 ∧
      getEarthHourDate year z = msOfCivil (getEarthHourCivil year) z ∧
      (getEarthHourCivil year).month = 3 ∧
      (getEarthHourCivil year).day = earthHourDay year ∧
      (getEarthHourCivil year).hour = 20 ∧
      (getEarthHourCivil year).minute = 30 ∧
      (getEarthHourCivil year).second = 0 ∧
      (getEarthHourCivil year).ms = 0) ∧
    civilOfMs amsterdamCET (getEarthHourDate 2024 amsterdamCET)
      = ⟨2024, 3, 30, 20, 30, 0, 0⟩ ∧
    civilOfMs amsterdamCET (getEarthHourDate 2025 amsterdamCET)
      = ⟨2025, 3, 29, 20, 30, 0, 0⟩ ∧
    civilOfMs amsterdamCET (getEarthHourDate 2026 amsterdamCET)
      = ⟨2026, 3, 28, 20, 30, 0, 0⟩ := by
  refine ⟨fun year z => ?_, by decide, by decide, by decide⟩
  obtain ⟨h1, h2, h3⟩ := earthHourDay_lastSaturday year
  exact ⟨h1, h2, h3, rfl, rfl, rfl, rfl, rfl, rfl, rfl⟩

/-- Claim C5: `isCurrentlyEarthHour` evaluates the half-open interval
`[start, end)` against this calendar year's occurrence: it agrees with
`start ≤ now < end`, and for every `now` it is false at start − 1 minute,
true at exactly start, true at start + 59 minutes, and false at exactly end. -/
theorem C5_halfOpenWindow :
    (∀ (z : Zone) (now : Int),
      isCurrentlyEarthHour z now = true ↔
        getThisYearsEarthHourStart z now ≤ now ∧
        now < getThisYearsEarthHourEnd z now) ∧
    (∀ (z : Zone) (now : Int),
      now = getThisYearsEarthHourStart z now - 60000 →
      isCurrentlyEarthHour z now = false) ∧
    (∀ (z : Zone) (now : Int),
      now = getThisYearsEarthHourStart z now →
      isCurrentlyEarthHour z now = true) ∧
    (∀ (z : Zone) (now : Int),
      now = getThisYearsEarthHourStart z now + 59 * 60000 →
      isCurrentlyEarthHour z now = true) ∧
    (∀ (z : Zone) (now : Int),
      now = getThisYearsEarthHourEnd z now →
      isCurrentlyEarthHour z now = false) := by
  have hiff : ∀ (z : Zone) (now : Int),
      isCurrentlyEarthHour z now = true ↔
        getThisYearsEarthHourStart z now ≤ now ∧
        now < getThisYearsEarthHourEnd z now := by
    intro z now
    simp [isCurrentlyEarthHour]
  refine ⟨hiff, ?_, ?_, ?_, ?_⟩ <;> intro z now h
  · rw [← Bool.not_eq_true, hiff z now]
    simp only [getThisYearsEarthHourEnd, addHourToStart] at *
    omega
  · rw [hiff z now]
    simp only [getThisYearsEarthHourEnd, addHourToStart] at *
    omega
  · rw [hiff z now]
    simp only [getThisYearsEarthHourEnd, addHourToStart] at *
    omega
  · rw [← Bool.not_eq_true, hiff z now]
    simp only [getThisYearsEarthHourEnd, addHourToStart] at *
    omega

/-- Witness for C5 at the 2025 Europe/Amsterdam fixture: the four boundary
evaluations at start − 1 min, start, start + 59 min and end. -/
theorem C5_halfOpenWindow_witness :
    isCurrentlyEarthHour amsterdamCET
      (getEarthHourDate 2025 amsterdamCET - 60000) = false ∧
    isCurrentlyEarthHour amsterdamCET
      (getEarthHourDate 2025 amsterdamCET) = true ∧
    isCurrentlyEarthHour amsterdamCET
      (getEarthHourDate 2025 amsterdamCET + 59 * 60000) = true ∧
    isCurrentlyEarthHour amsterdamCET
      (getEarthHourEnd 2025 amsterdamCET) = false :=
  ⟨C5_halfOpenWindow.2.1 amsterdamCET _ (by decide),
   C5_halfOpenWindow.2.2.1 amsterdamCET _ (by decide),
   C5_halfOpenWindow.2.2.2.1 amsterdamCET _ (by decide),
   C5_halfOpenWindow.2.2.2.2 amsterdamCET _ (by decide)⟩

/-- Claim C2 as stated fails on the code: at 20:45 local on Earth Hour day 2025
— strictly before that occurrence's end — `getUpcomingEarthHourStart` has
already rolled forward and no longer returns the current year's occurrence;
its boundary is the start instant. -/
theorem C2_counterexample_rollsAtStart :
    (¬ ∀ (z : Zone) (now : Int),
        now < getThisYearsEarthHourEnd z now →
        getUpcomingEarthHourStart z now = getThisYearsEarthHourStart z now) ∧
    getUpcomingEarthHourStart amsterdamCET
        (getEarthHourDate 2025 amsterdamCET + 900000)
      = getEarthHourDate 2026 amsterdamCET := by
  constructor
  · intro h
    have hc := h amsterdamCET (getEarthHourDate 2025 amsterdamCET + 900000)
      (by decide)
    exact absurd hc (by decide)
  · decide

/-- Claim C2 amended: `getUpcomingEarthHourStart` itself rolls forward at the
start instant (`now < start` keeps this year, `now ≥ start` returns next
year's start); only the selection inside `getMinutesUntilEarthHourStart` has
the end-instant boundary: for `now < end` it measures against this year's
start, and for `now ≥ end` against next year's start. -/
theorem C2_upcomingSelectorBoundaries :
    (∀ (z : Zone) (now : Int),
      now < getThisYearsEarthHourStart z now →
      getUpcomingEarthHourStart z now = getThisYearsEarthHourStart z now) ∧
    (∀ (z : Zone) (now : Int),
      getThisYearsEarthHourStart z now ≤ now →
      getUpcomingEarthHourStart z now = getEarthHourDate (yearOf z now + 1) z) ∧
    (∀ (z : Zone) (now : Int),
      now < getThisYearsEarthHourEnd z now →
      getMinutesUntilEarthHourStart z now
        = minutesUntil (getThisYearsEarthHourStart z now) now) ∧
    (∀ (z : Zone) (now : Int),
      getThisYearsEarthHourEnd z now ≤ now →
      getMinutesUntilEarthHourStart z now
        = minutesUntil (getEarthHourDate (yearOf z now + 1) z) now) := by
  refine ⟨?_, ?_, ?_, ?_⟩ <;> intro z now h
  · simp only [getUpcomingEarthHourStart, getThisYearsEarthHourStart] at *
    rw [if_neg (by omega)]
  · simp only [getUpcomingEarthHourStart, getThisYearsEarthHourStart] at *
    rw [if_pos h]
  · simp only [getMinutesUntilEarthHourStart]
    rw [if_pos h]
  · simp only [getMinutesUntilEarthHourStart, getUpcomingEarthHourStart,
      getThisYearsEarthHourEnd, getThisYearsEarthHourStart, addHourToStart] at *
    rw [if_neg (by omega), if_pos (by omega)]

/-- Witness for C2 amended, at the 2025 Europe/Amsterdam fixture: 10 minutes
before the start the upcoming start is still this year's, and 30 minutes after
the end the countdown measures against next year's start. -/
theorem C2_upcomingSelectorBoundaries_witness :
    (getEarthHourDate 2025 amsterdamCET - 600000
        < getThisYearsEarthHourStart amsterdamCET
            (getEarthHourDate 2025 amsterdamCET - 600000) ∧
      getUpcomingEarthHourStart amsterdamCET
          (getEarthHourDate 2025 amsterdamCET - 600000)
        = getThisYearsEarthHourStart amsterdamCET
            (getEarthHourDate 2025 amsterdamCET - 600000)) ∧
    (getThisYearsEarthHourEnd amsterdamCET
          (getEarthHourEnd 2025 amsterdamCET + 1800000)
        ≤ getEarthHourEnd 2025 amsterdamCET + 1800000 ∧
      getMinutesUntilEarthHourStart amsterdamCET
          (getEarthHourEnd 2025 amsterdamCET + 1800000)
        = minutesUntil
            (getEarthHourDate
              (yearOf amsterdamCET (getEarthHourEnd 2025 amsterdamCET + 1800000) + 1)
              amsterdamCET)
            (getEarthHourEnd 2025 amsterdamCET + 1800000)) :=
  ⟨⟨by decide, C2_upcomingSelectorBoundaries.1 amsterdamCET _ (by decide)⟩,
   ⟨by decide, C2_upcomingSelectorBoundaries.2.2.2 amsterdamCET _ (by decide)⟩⟩

/-- Claim C3 as stated fails on the code: 10 seconds before the end — inside
the active window — the rounded countdown to the end is 0, not positive; and at
the instant `now` reaches the end the value is already positive (next year's
end), it never becomes negative. -/
theorem C3_counterexample_zeroBeforeEnd :
    (¬ ∀ (z : Zone) (now : Int),
        getThisYearsEarthHourStart z now ≤ now →
        now < getThisYearsEarthHourEnd z now →
        0 < getMinutesUntilEarthHourEnd z now) ∧
    0 < getMinutesUntilEarthHourEnd amsterdamCET
          (getEarthHourEnd 2025 amsterdamCET) := by
  constructor
  · intro h
    have hc := h amsterdamCET (getEarthHourEnd 2025 amsterdamCET - 10000)
      (by decide) (by decide)
    exact absurd hc (by decide)
  · decide

/-- Claim C3 amended: inside the active window the countdown to the end is
non-negative and at most 60, and positive whenever at least half a minute
remains before the end; the function never goes negative — it is non-negative
at every instant, and strictly positive for every `now` at or after this
year's end, where the selection has already rolled and measures next year's
end. -/
theorem C3_minutesUntilEndWindow :
    (∀ (z : Zone) (now : Int),
      getThisYearsEarthHourStart z now ≤ now →
      now < getThisYearsEarthHourEnd z now →
      0 ≤ getMinutesUntilEarthHourEnd z now ∧
        getMinutesUntilEarthHourEnd z now ≤ 60) ∧
    (∀ (z : Zone) (now : Int),
      getThisYearsEarthHourStart z now ≤ now →
      now + 30000 ≤ getThisYearsEarthHourEnd z now →
      0 < getMinutesUntilEarthHourEnd z now) ∧
    (∀ (z : Zone) (now : Int),
      getThisYearsEarthHourEnd z now ≤ now →
      getMinutesUntilEarthHourEnd z now
        = minutesUntil (getEarthHourEnd (yearOf z now + 1) z) now) ∧
    (∀ (z : Zone) (now : Int),
      getThisYearsEarthHourEnd z now ≤ now →
      0 < getMinutesUntilEarthHourEnd z now) ∧
    (∀ (z : Zone) (now : Int),
      0 ≤ getMinutesUntilEarthHourEnd z now) := by
  refine ⟨?_, ?_, ?_, minutesUntilEnd_pos_after_end, ?_⟩
  · intro z now h1 h2
    simp only [getMinutesUntilEarthHourEnd]
    rw [if_pos h2]
    simp only [getThisYearsEarthHourEnd, getThisYearsEarthHourStart,
      addHourToStart, minutesUntil] at *
    omega
  · intro z now h1 h2
    simp only [getMinutesUntilEarthHourEnd]
    rw [if_pos (by omega)]
    simp only [getThisYearsEarthHourEnd, getThisYearsEarthHourStart,
      addHourToStart, minutesUntil] at *
    omega
  · intro z now h
    simp only [getMinutesUntilEarthHourEnd, getUpcomingEarthHourEnd,
      getUpcomingEarthHourStart, getThisYearsEarthHourEnd,
      getThisYearsEarthHourStart, addHourToStart] at *
    rw [if_neg (by omega), if_pos (by omega)]
    rfl
  · intro z now
    by_cases hc : now < getThisYearsEarthHourEnd z now
    · simp only [getMinutesUntilEarthHourEnd]
      rw [if_pos hc]
      simp only [getThisYearsEarthHourEnd, getThisYearsEarthHourStart,
        addHourToStart, minutesUntil] at *
      omega
    · exact le_of_lt (minutesUntilEnd_pos_after_end z now (by omega))

/-- Witness for C3 amended, at the 2025 Europe/Amsterdam fixture: 15 minutes
into the window the countdown is positive and at most 60, and 30 minutes after
the end it measures next year's end and is strictly positive. -/
theorem C3_minutesUntilEndWindow_witness :
    (0 ≤ getMinutesUntilEarthHourEnd amsterdamCET
          (getEarthHourDate 2025 amsterdamCET + 900000) ∧
      getMinutesUntilEarthHourEnd amsterdamCET
          (getEarthHourDate 2025 amsterdamCET + 900000) ≤ 60) ∧
    0 < getMinutesUntilEarthHourEnd amsterdamCET
          (getEarthHourDate 2025 amsterdamCET + 900000) ∧
    getMinutesUntilEarthHourEnd amsterdamCET
        (getEarthHourEnd 2025 amsterdamCET + 1800000)
      = minutesUntil
          (getEarthHourEnd
            (yearOf amsterdamCET (getEarthHourEnd 2025 amsterdamCET + 1800000) + 1)
            amsterdamCET)
          (getEarthHourEnd 2025 amsterdamCET + 1800000) ∧
    0 < getMinutesUntilEarthHourEnd amsterdamCET
          (getEarthHourEnd 2025 amsterdamCET + 1800000) :=
  ⟨C3_minutesUntilEndWindow.1 amsterdamCET _ (by decide) (by decide),
   C3_minutesUntilEndWindow.2.1 amsterdamCET _ (by decide) (by decide),
   C3_minutesUntilEndWindow.2.2.1 amsterdamCET _ (by decide),
   C3_minutesUntilEndWindow.2.2.2.1 amsterdamCET _ (by decide)⟩

/-- Claim C6 as stated fails on the code: at exactly the start — inside the
active window — the countdown to the start is 0, not negative; and 10 seconds
before the start it is 0, not positive. -/
theorem C6_counterexample_zeroAtStart :
    (¬ ∀ (z : Zone) (now : Int),
        getThisYearsEarthHourStart z now ≤ now →
        now < getThisYearsEarthHourEnd z now →
        getMinutesUntilEarthHourStart z now < 0) ∧
    getMinutesUntilEarthHourStart amsterdamCET
        (getEarthHourDate 2025 amsterdamCET - 10000) = 0 := by
  constructor
  · intro h
    have hc := h amsterdamCET (getEarthHourDate 2025 amsterdamCET)
      (by decide) (by decide)
    exact absurd hc (by decide)
  · decide

/-- Claim C6 amended: before the start the countdown is non-negative, and
positive whenever at least half a minute remains; inside the active window it
is non-positive with absolute value at most 60; once `now ≥ end` it measures
next year's start — at the 2025 fixture, 30 minutes after the end, it is
524 070 minutes (≈ 364 days). -/
theorem C6_minutesUntilStartSigns :
    (∀ (z : Zone) (now : Int),
      now < getThisYearsEarthHourStart z now →
      0 ≤ getMinutesUntilEarthHourStart z now) ∧
    (∀ (z : Zone) (now : Int),
      now + 30000 ≤ getThisYearsEarthHourStart z now →
      0 < getMinutesUntilEarthHourStart z now) ∧
    (∀ (z : Zone) (now : Int),
      getThisYearsEarthHourStart z now ≤ now →
      now < getThisYearsEarthHourEnd z now →
      -60 ≤ getMinutesUntilEarthHourStart z now ∧
        getMinutesUntilEarthHourStart z now ≤ 0) ∧
    (∀ (z : Zone) (now : Int),
      getThisYearsEarthHourEnd z now ≤ now →
      getMinutesUntilEarthHourStart z now
        = minutesUntil (getEarthHourDate (yearOf z now + 1) z) now) ∧
    getMinutesUntilEarthHourStart amsterdamCET
        (getEarthHourEnd 2025 amsterdamCET + 1800000) = 524070 := by
  refine ⟨?_, ?_, ?_, ?_, by decide⟩
  · intro z now h
    simp only [getMinutesUntilEarthHourStart]
    rw [if_pos (by
      simp only [getThisYearsEarthHourEnd, getThisYearsEarthHourStart,
        addHourToStart] at *
      omega)]
    simp only [getThisYearsEarthHourStart, minutesUntil] at *
    omega
  · intro z now h
    simp only [getMinutesUntilEarthHourStart]
    rw [if_pos (by
      simp only [getThisYearsEarthHourEnd, getThisYearsEarthHourStart,
        addHourToStart] at *
      omega)]
    simp only [getThisYearsEarthHourStart, minutesUntil] at *
    omega
  · intro z now h1 h2
    simp only [getMinutesUntilEarthHourStart]
    rw [if_pos h2]
    simp only [getThisYearsEarthHourEnd, getThisYearsEarthHourStart,
      addHourToStart, minutesUntil] at *
    omega
  · intro z now h
    simp only [getMinutesUntilEarthHourStart, getUpcomingEarthHourStart,
      getThisYearsEarthHourEnd, getThisYearsEarthHourStart, addHourToStart] at *
    rw [if_neg (by omega), if_pos (by omega)]

/-- Witness for C6 amended, at the 2025 Europe/Amsterdam fixture: positive ten
minutes before the start, non-positive and within one hour at 20:45, and
measuring next year's start 30 minutes after the end. -/
theorem C6_minutesUntilStartSigns_witness :
    0 ≤ getMinutesUntilEarthHourStart amsterdamCET
          (getEarthHourDate 2025 amsterdamCET - 600000) ∧
    0 < getMinutesUntilEarthHourStart amsterdamCET
          (getEarthHourDate 2025 amsterdamCET - 600000) ∧
    (-60 ≤ getMinutesUntilEarthHourStart amsterdamCET
          (getEarthHourDate 2025 amsterdamCET + 900000) ∧
      getMinutesUntilEarthHourStart amsterdamCET
          (getEarthHourDate 2025 amsterdamCET + 900000) ≤ 0) ∧
    getMinutesUntilEarthHourStart amsterdamCET
        (getEarthHourEnd 2025 amsterdamCET + 1800000)
      = minutesUntil
          (getEarthHourDate
            (yearOf amsterdamCET (getEarthHourEnd 2025 amsterdamCET + 1800000) + 1)
            amsterdamCET)
          (getEarthHourEnd 2025 amsterdamCET + 1800000) :=
  ⟨C6_minutesUntilStartSigns.1 amsterdamCET _ (by decide),
   C6_minutesUntilStartSigns.2.1 amsterdamCET _ (by decide),
   C6_minutesUntilStartSigns.2.2.1 amsterdamCET _ (by decide) (by decide),
   C6_minutesUntilStartSigns.2.2.2.1 amsterdamCET _ (by decide)⟩

/-- Claim C4 as stated fails on the code: with the datetime library's default
configuration an unresolvable zone does not fail the call — `getEarthHourDate`
returns a value, the Invalid Date, and throws nothing. -/
theorem C4_counterexample_noThrow :
    getEarthHourDateJS (fun _ => none) 2025 "Not/A/Zone"
      = JsResult.value JSDate.invalid ∧
    ¬ ∃ msg, getEarthHourDateJS (fun _ => none) 2025 "Not/A/Zone"
        = JsResult.thrown msg := by
  refine ⟨rfl, ?_⟩
  rintro ⟨msg, h⟩
  simp only [getEarthHourDateJS] at h
  exact JsResult.noConfusion h

/-- Claim C4 amended: an unresolvable zone makes `getEarthHourDate` return the
Invalid Date — a sentinel distinct from every valid instant and from any thrown
error, never a silently-defaulted valid value — while a resolvable zone always
yields the valid computed instant. -/
theorem C4_invalidZoneYieldsInvalidDate :
    (∀ (resolve : String → Option Zone) (year : Int) (tz : String),
      resolve tz = none →
      getEarthHourDateJS resolve year tz = JsResult.value JSDate.invalid) ∧
    (∀ (resolve : String → Option Zone) (year : Int) (tz : String) (z : Zone),
      resolve tz = some z →
      getEarthHourDateJS resolve year tz
        = JsResult.value (JSDate.valid (getEarthHourDate year z))) ∧
    (∀ ms : Int,
      (JsResult.value JSDate.invalid : JsResult JSDate)
        ≠ JsResult.value (JSDate.valid ms)) ∧
    (∀ msg : String,
      (JsResult.value JSDate.invalid : JsResult JSDate)
        ≠ JsResult.thrown msg) := by
  refine ⟨?_, ?_, ?_, ?_⟩
  · intro resolve year tz h
    simp [getEarthHourDateJS, h]
  · intro resolve year tz z h
    simp [getEarthHourDateJS, h]
  · intro ms
    simp
  · intro msg
    simp

/-- A two-entry stand-in for the IANA zone database, for the C4 witness. -/
def testResolve : String → Option Zone :=
  fun s => if s = "Europe/Amsterdam" then some amsterdamCET else none

/-- Witness for C4 amended: an unknown zone string yields the Invalid Date and
a known one the valid instant. -/
theorem C4_invalidZoneYieldsInvalidDate_witness :
    getEarthHourDateJS testResolve 2025 "Not/A/Zone"
      = JsResult.value JSDate.invalid ∧
    getEarthHourDateJS testResolve 2025 "Europe/Amsterdam"
      = JsResult.value (JSDate.valid (getEarthHourDate 2025 amsterdamCET)) :=
  ⟨C4_invalidZoneYieldsInvalidDate.1 testResolve 2025 "Not/A/Zone" (by decide),
   C4_invalidZoneYieldsInvalidDate.2.1 testResolve 2025 "Europe/Amsterdam"
     amsterdamCET (by decide)⟩

/-- Claim C7 as stated fails on the code: JS `Math.round` resolves the
.5-minute boundary upward for positive differences (+2.5 min → 3, as
half-away-from-zero would) but toward zero for negative ones (−2.5 min → −2,
as half-to-even would), so neither of the two offered rules holds
consistently. -/
theorem C7_counterexample_tieBreak :
    ¬ ((∀ target now : Int,
          minutesUntil target now = roundHalfAwayFromZero (target - now)) ∨
       (∀ target now : Int,
          minutesUntil target now = roundHalfToEven (target - now))) := by
  rintro (h | h)
  · exact absurd (h 0 150000) (by decide)
  · exact absurd (h 150000 0) (by decide)

/-- Claim C7 amended: `minutesUntil` rounds the difference to the nearest
whole minute with the .5-minute boundary resolved toward positive infinity
(JS `Math.round` is `⌊x + 1/2⌋`): the result is within half a minute of the
exact difference, ties going up — +2.5 min gives 3, −2.5 min gives −2. -/
theorem C7_minutesUntilRoundsHalfUp :
    (∀ target now : Int,
      120000 * minutesUntil target now ≤ 2 * (target - now) + 60000 ∧
      2 * (target - now) + 60000 < 120000 * (minutesUntil target now + 1)) ∧
    minutesUntil 150000 0 = 3 ∧ minutesUntil 0 150000 = -2 := by
  refine ⟨?_, by decide, by decide⟩
  intro target now
  simp only [minutesUntil]
  omega

/-- Claim C8: `getOneMonthBeforeEarthHour` subtracts one civil month from the
occurrence start with day clamped to the month length: in Europe/Amsterdam it
gives 2025-02-28 20:30 local for 2025 (no Feb 29 in 2025) and 2024-02-29 20:30
local for 2024 (leap year); in general a March date steps to February with the
day clamped to 29 or 28 by leap year. -/
theorem C8_oneMonthBeforeClamps :
    civilOfMs amsterdamCET (getOneMonthBeforeEarthHour 2025 amsterdamCET)
      = ⟨2025, 2, 28, 20, 30, 0, 0⟩ ∧
    civilOfMs amsterdamCET (getOneMonthBeforeEarthHour 2024 amsterdamCET)
      = ⟨2024, 2, 29, 20, 30, 0, 0⟩ ∧
    (∀ (year : Int) (z : Zone),
      getOneMonthBeforeEarthHour year z
        = msOfCivil (minusOneMonth (civilOfMs z (getEarthHourDate year z))) z) ∧
    (∀ c : CivilDT, c.month = 3 →
      minusOneMonth c = { c with month := 2, day := min c.day (if isLeap c.year then 29 else 28) }) := by
  refine ⟨by decide, by decide, fun year z => rfl, ?_⟩
  intro c h
  simp [minusOneMonth, daysInMonth, h]

/-- Witness for C8's general clamp at the 2025 start civil datetime:
February 2025 has 28 days, so the 29th clamps to the 28th. -/
theorem C8_oneMonthBeforeClamps_witness :
    minusOneMonth ⟨2025, 3, 29, 20, 30, 0, 0⟩ = ⟨2025, 2, 28, 20, 30, 0, 0⟩ :=
  C8_oneMonthBeforeClamps.2.2.2 ⟨2025, 3, 29, 20, 30, 0, 0⟩ rfl

/-- Claim C9: `formatDateFriendly` renders the day with the standard English
ordinal suffix exactly for English locales and the bare numeral otherwise:
the 2025 occurrence start formats as "29th March 2025" for locale "en" and
"29 maart 2025" for locale "nl", and on days 1–31 `ordinalEn` agrees with the
standard rule (units digit 1 → st, 2 → nd, 3 → rd, else th, except
11–13 → th). -/
theorem C9_ordinalFormatting :
    formatDateFriendly (getEarthHourDate 2025 amsterdamCET) amsterdamCET
        (some "en") = "29th March 2025" ∧
    formatDateFriendly (getEarthHourDate 2025 amsterdamCET) amsterdamCET
        (some "nl") = "29 maart 2025" ∧
    (∀ d : Nat, d ≤ 31 → 1 ≤ d →
      ordinalEn (d : Int) = toString (d : Int) ++ specOrdinalSuffix (d : Int)) ∧
    (∀ (t : Int) (z : Zone) (l : String), l ≠ "" →
      strStartsWith l "en" = false →
      formatDateFriendly t z (some l)
        = toString (civilOfMs z t).day ++ " "
            ++ monthName l (civilOfMs z t).month ++ " "
            ++ toString (civilOfMs z t).year) := by
  refine ⟨by decide, by decide, by decide, ?_⟩
  intro t z l h1 h2
  simp [formatDateFriendly, h1, h2]

/-- Witness for C9 at day 29 and the Dutch fixture. -/
theorem C9_ordinalFormatting_witness :
    ordinalEn ((29 : Nat) : Int)
      = toString ((29 : Nat) : Int) ++ specOrdinalSuffix ((29 : Nat) : Int) ∧
    formatDateFriendly (getEarthHourDate 2025 amsterdamCET) amsterdamCET
        (some "nl")
      = toString (civilOfMs amsterdamCET (getEarthHourDate 2025 amsterdamCET)).day
          ++ " "
          ++ monthName "nl"
              (civilOfMs amsterdamCET (getEarthHourDate 2025 amsterdamCET)).month
          ++ " "
          ++ toString
              (civilOfMs amsterdamCET (getEarthHourDate 2025 amsterdamCET)).year :=
  ⟨C9_ordinalFormatting.2.2.1 29 (by decide) (by decide),
   C9_ordinalFormatting.2.2.2 (getEarthHourDate 2025 amsterdamCET) amsterdamCET
     "nl" (by decide) (by decide)⟩

/-- Claim C10: an omitted or empty locale defaults to "en" (hence the English
ordinal suffix), and every locale tag beginning with "en" — not only the exact
tag — selects the ordinal rendering, in both `formatDateFriendly` and
`formatDateFriendlyNoYear`; "en-GB" formats the 2025 start as
"29th March 2025". -/
theorem C10_localeDefaultAndEnglishTags :
    (∀ (t : Int) (z : Zone),
      formatDateFriendly t z none = formatDateFriendly t z (some "en")) ∧
    (∀ (t : Int) (z : Zone),
      formatDateFriendly t z (some "") = formatDateFriendly t z (some "en")) ∧
    (∀ (t : Int) (z : Zone),
      formatDateFriendlyNoYear t z none
        = formatDateFriendlyNoYear t z (some "en")) ∧
    (∀ (t : Int) (z : Zone),
      formatDateFriendlyNoYear t z (some "")
        = formatDateFriendlyNoYear t z (some "en")) ∧
    (∀ (t : Int) (z : Zone) (l : String), strStartsWith l "en" = true →
      formatDateFriendly t z (some l)
        = ordinalEn (civilOfMs z t).day ++ " "
            ++ monthName l (civilOfMs z t).month ++ " "
            ++ toString (civilOfMs z t).year) ∧
    (∀ (t : Int) (z : Zone) (l : String), strStartsWith l "en" = true →
      formatDateFriendlyNoYear t z (some l)
        = ordinalEn (civilOfMs z t).day ++ " "
            ++ monthName l (civilOfMs z t).month) ∧
    formatDateFriendly (getEarthHourDate 2025 amsterdamCET) amsterdamCET
        (some "en-GB") = "29th March 2025" ∧
    formatDateFriendlyNoYear (getEarthHourDate 2025 amsterdamCET) amsterdamCET
        none = "29th March" := by
  refine ⟨fun t z => rfl, fun t z => rfl, fun t z => rfl, fun t z => rfl,
    ?_, ?_, by decide, by decide⟩
  · intro t z l h
    have h1 : l ≠ "" := by
      intro he
      subst he
      exact absurd h (by decide)
    simp [formatDateFriendly, h1, h]
  · intro t z l h
    have h1 : l ≠ "" := by
      intro he
      subst he
      exact absurd h (by decide)
    simp [formatDateFriendlyNoYear, h1, h]

/-- Witness for C10's English-tag dispatch with the region tag "en-GB". -/
theorem C10_localeDefaultAndEnglishTags_witness :
    formatDateFriendly (getEarthHourDate 2025 amsterdamCET) amsterdamCET
        (some "en-GB")
      = ordinalEn
            (civilOfMs amsterdamCET (getEarthHourDate 2025 amsterdamCET)).day
          ++ " "
          ++ monthName "en-GB"
              (civilOfMs amsterdamCET (getEarthHourDate 2025 amsterdamCET)).month
          ++ " "
          ++ toString
              (civilOfMs amsterdamCET (getEarthHourDate 2025 amsterdamCET)).year :=
  C10_localeDefaultAndEnglishTags.2.2.2.2.1
    (getEarthHourDate 2025 amsterdamCET) amsterdamCET "en-GB" (by decide)
